import Mathlib

/-!
Shallow embedding of the meeting-coach real-time client
(frontend JavaScript: app.js, audio-capture.js, screen-capture, nudge-display.js,
summary-view.js, audio-player.js), together with theorems settling the
specification claims about it.

Modelling conventions:
* JavaScript numbers that the code uses only at exactly representable values
  are embedded as rationals (sample values, scale factors) or integers.
* `Int16Array` element storage applies the ECMAScript ToInt16 conversion:
  truncation toward zero followed by wrap-around into [-32768, 32767].
* A WebSocket is abstracted to its `readyState`; an absent socket (`this.ws`
  being `null`) is `Option.none`.
* DOM side effects are reified as explicit effect values.
-/

/-- ECMAScript WebSocket readyState values. `opened` stands for
`WebSocket.OPEN` (the keyword `open` is reserved in Lean). -/
inductive ReadyState
  | connecting
  | opened
  | closing
  | closed
deriving DecidableEq, Repr

/- ===================== audio-capture.js ===================== -/

/-- Truncation toward zero, the first half of the ECMAScript ToInt16
conversion applied when a number is stored into an `Int16Array`. -/
def jsTrunc (q : ℚ) : ℤ :=
  if q < 0 then ⌈q⌉ else ⌊q⌋

/-- Wrap-around into the signed 16-bit range, the second half of ToInt16. -/
def toInt16 (t : ℤ) : ℤ :=
  (t + 32768) % 65536 - 32768

/-- `AudioCapture._float32ToInt16`, per sample:
`const s = Math.max(-1, Math.min(1, float32Array[i]));`
`int16[i] = s < 0 ? s * 0x8000 : s * 0x7fff;` -/
def float32SampleToInt16 (x : ℚ) : ℤ :=
  let s := max (-1) (min 1 x)
  toInt16 (jsTrunc (if s < 0 then s * 32768 else s * 32767))

/-- `AudioCapture._float32ToInt16` over a whole buffer. -/
def float32ToInt16 (float32Array : List ℚ) : List ℤ :=
  float32Array.map float32SampleToInt16

/-- State of an `AudioCapture` instance: its `isCapturing` flag and the
readyState of the WebSocket it holds (`none` = `this.ws` is null). -/
structure AudioCaptureState where
  isCapturing : Bool
  ws : Option ReadyState
deriving DecidableEq, Repr

/-- The `onaudioprocess` callback installed by `AudioCapture.start`:
`if (!this.isCapturing || !this.ws || this.ws.readyState !== WebSocket.OPEN) return;`
then convert the buffer and send it. Returns the (unchanged) capture state and
the binary frame that was sent, if any. -/
def onaudioprocess (st : AudioCaptureState) (inputBuffer : List ℚ) :
    AudioCaptureState × Option (List ℤ) :=
  if ¬ st.isCapturing ∨ st.ws = none ∨ st.ws ≠ some ReadyState.opened then
    (st, none)
  else
    (st, some (float32ToInt16 inputBuffer))

/- ===================== screen capture ===================== -/

/-- `Math.round`: round half toward positive infinity. -/
def jsRound (q : ℚ) : ℤ := ⌊q + 1 / 2⌋

/-- The scale factor in `ScreenCapture._captureFrame`:
`const scale = Math.min(1, 1280 / vw, 720 / vh);`. -/
def screenScale (vw vh : ℕ) : ℚ :=
  min 1 (min (1280 / (vw : ℚ)) (720 / (vh : ℚ)))

/-- The canvas dimensions set in `ScreenCapture._captureFrame`:
`this.canvas.width = Math.round(vw * scale); this.canvas.height = Math.round(vh * scale);`. -/
def canvasDims (vw vh : ℕ) : ℤ × ℤ :=
  ((jsRound ((vw : ℚ) * screenScale vw vh)), (jsRound ((vh : ℚ) * screenScale vw vh)))

/-- `this.frameIntervalMs = 2000; // 1 frame every 2 seconds`. -/
def frameIntervalMs : ℕ := 2000

/-- The arguments of `canvas.toBlob(..., 'image/jpeg', 0.7)`. -/
def jpegMimeType : String := "image/jpeg"

/-- JPEG encoder quality passed to `canvas.toBlob`. -/
def jpegQuality : ℚ := 7 / 10

/-- The observable content of one emitted `screen_frame` message: the canvas
dimensions the JPEG was rasterized at and the encoder parameters. The JPEG
bytes and their base64 encoding are platform primitives and not modelled. -/
structure ScreenFrameMsg where
  width : ℤ
  height : ℤ
  mime : String
  quality : ℚ
deriving DecidableEq, Repr

/-- State of a `ScreenCapture` instance: `isCapturing`, the held WebSocket
readyState, and the current `videoWidth`/`videoHeight` of its video element. -/
structure ScreenCaptureState where
  isCapturing : Bool
  ws : Option ReadyState
  videoWidth : ℕ
  videoHeight : ℕ
deriving DecidableEq, Repr

/-- `ScreenCapture._captureFrame`:
`if (!this.isCapturing || !this.ws || this.ws.readyState !== WebSocket.OPEN) return;`
then scale, rasterize and send one frame. Returns the (unchanged) capture
state and the emitted frame, if any. -/
def captureFrame (st : ScreenCaptureState) :
    ScreenCaptureState × Option ScreenFrameMsg :=
  if ¬ st.isCapturing ∨ st.ws = none ∨ st.ws ≠ some ReadyState.opened then
    (st, none)
  else
    (st, some { width := (canvasDims st.videoWidth st.videoHeight).1
                height := (canvasDims st.videoWidth st.videoHeight).2
                mime := jpegMimeType
                quality := jpegQuality })

/- ===================== theorems: C5, C6, C2 groundwork ===================== -/

lemma toInt16_eq_self {t : ℤ} (h1 : -32768 ≤ t) (h2 : t ≤ 32767) :
    toInt16 t = t := by
  unfold toInt16
  have : (t + 32768) % 65536 = t + 32768 := Int.emod_eq_of_lt (by omega) (by omega)
  omega

lemma clamp_mem (x : ℚ) : -1 ≤ max (-1) (min 1 x) ∧ max (-1) (min 1 x) ≤ 1 := by
  constructor
  · exact le_max_left _ _
  · exact max_le (by norm_num) (min_le_left _ _)

lemma jsTrunc_bounds {v : ℚ} (h1 : -32768 ≤ v) (h2 : v ≤ 32767) :
    -32768 ≤ jsTrunc v ∧ jsTrunc v ≤ 32767 := by
  unfold jsTrunc
  split
  · constructor
    · have hc := Int.le_ceil v
      exact_mod_cast le_trans h1 hc
    · have hc : ⌈v⌉ ≤ ⌈(32767 : ℚ)⌉ := Int.ceil_le_ceil h2
      have : ⌈(32767 : ℚ)⌉ = 32767 := by
        rw [show ((32767 : ℚ)) = ((32767 : ℤ) : ℚ) by norm_num, Int.ceil_intCast]
      omega
  · constructor
    · exact Int.le_floor.mpr (by push_cast; linarith)
    · have hf : ⌊v⌋ ≤ ⌊(32767 : ℚ)⌋ := Int.floor_le_floor h2
      have : ⌊(32767 : ℚ)⌋ = 32767 := by norm_num
      omega

lemma float32SampleToInt16_no_wrap (x : ℚ) :
    float32SampleToInt16 x =
      jsTrunc (if max (-1) (min 1 x) < 0
               then max (-1) (min 1 x) * 32768
               else max (-1) (min 1 x) * 32767) ∧
    -32768 ≤ float32SampleToInt16 x ∧ float32SampleToInt16 x ≤ 32767 := by
  unfold float32SampleToInt16
  obtain ⟨hlo, hhi⟩ := clamp_mem x
  set s := max (-1) (min 1 x) with hs
  have hb : -32768 ≤ (if s < 0 then s * 32768 else s * 32767) ∧
      (if s < 0 then s * 32768 else s * 32767) ≤ 32767 := by
    split
    · constructor <;> nlinarith
    · push_neg at *
      constructor <;> nlinarith
  obtain ⟨ht1, ht2⟩ := jsTrunc_bounds hb.1 hb.2
  rw [toInt16_eq_self ht1 ht2]
  exact ⟨rfl, ht1, ht2⟩

lemma float32SampleToInt16_bounds (x : ℚ) :
    -32768 ≤ float32SampleToInt16 x ∧ float32SampleToInt16 x ≤ 32767 :=
  (float32SampleToInt16_no_wrap x).2

/-- C5: the PCM conversion clips to [-1,1] first, scales negatives by 32768
and non-negatives by 32767; 1.0 ↦ 32767, -1.0 ↦ -32768, 0.0 ↦ 0, any input
at or beyond the clip points maps to the extremes, and every output sample
lies in [-32768, 32767]. -/
theorem C5_pcm_conversion :
    float32SampleToInt16 1 = 32767 ∧
    float32SampleToInt16 (-1) = -32768 ∧
    float32SampleToInt16 0 = 0 ∧
    (∀ x : ℚ, 1 ≤ x → float32SampleToInt16 x = 32767) ∧
    (∀ x : ℚ, x ≤ -1 → float32SampleToInt16 x = -32768) ∧
    (∀ x : ℚ, -32768 ≤ float32SampleToInt16 x ∧ float32SampleToInt16 x ≤ 32767) ∧
    (∀ buf : List ℚ, ∀ y ∈ float32ToInt16 buf, -32768 ≤ y ∧ y ≤ 32767) := by
  have hceil : ⌈(-32768 : ℚ)⌉ = -32768 := by
    rw [show ((-32768 : ℚ)) = ((-32768 : ℤ) : ℚ) by norm_num, Int.ceil_intCast]
  have hmax : ∀ x : ℚ, 1 ≤ x → float32SampleToInt16 x = 32767 := by
    intro x hx
    have hclamp : max (-1) (min 1 x) = 1 := by
      rw [min_eq_left hx]
      exact max_eq_right (by norm_num)
    rw [(float32SampleToInt16_no_wrap x).1, hclamp]
    norm_num [jsTrunc]
  have hmin : ∀ x : ℚ, x ≤ -1 → float32SampleToInt16 x = -32768 := by
    intro x hx
    have hclamp : max (-1) (min 1 x) = -1 := by
      rw [min_eq_right (le_trans hx (by norm_num))]
      exact max_eq_left hx
    rw [(float32SampleToInt16_no_wrap x).1, hclamp]
    norm_num [jsTrunc, hceil]
  refine ⟨hmax 1 le_rfl, hmin (-1) le_rfl, ?_, hmax, hmin, float32SampleToInt16_bounds, ?_⟩
  · rw [(float32SampleToInt16_no_wrap 0).1]
    norm_num [jsTrunc]
  · intro buf y hy
    unfold float32ToInt16 at hy
    obtain ⟨x, _, rfl⟩ := List.mem_map.mp hy
    exact float32SampleToInt16_bounds x

/-- Witness for C5 at concrete inputs: discharging the clip-branch
hypotheses at 3/2 and -7/4. -/
theorem C5_pcm_conversion_witness :
    float32SampleToInt16 (3 / 2) = 32767 ∧ float32SampleToInt16 (-7 / 4) = -32768 :=
  ⟨C5_pcm_conversion.2.2.2.1 (3 / 2) (by norm_num),
   C5_pcm_conversion.2.2.2.2.1 (-7 / 4) (by norm_num)⟩

/-- C2: a capture tick that fires while the held WebSocket's readyState is
not OPEN (including a reconnect in progress, where the socket is closed or a
fresh one is still connecting, and the null-socket case) sends nothing,
leaves the capture state unchanged (there is no queue to append to), and is
a total function (the early return cannot throw). -/
theorem C2_frames_dropped_when_not_open
    (ast : AudioCaptureState) (inputBuffer : List ℚ) (sst : ScreenCaptureState)
    (ha : ast.ws ≠ some ReadyState.opened)
    (hs : sst.ws ≠ some ReadyState.opened) :
    onaudioprocess ast inputBuffer = (ast, none) ∧
    captureFrame sst = (sst, none) := by
  constructor
  · unfold onaudioprocess
    rw [if_pos (Or.inr (Or.inr ha))]
  · unfold captureFrame
    rw [if_pos (Or.inr (Or.inr hs))]

/-- Witness for C2: a tick on each pipeline during a reconnect (old socket
closed while still capturing) is dropped without touching the state. -/
theorem C2_frames_dropped_when_not_open_witness :
    (some ReadyState.closed ≠ some ReadyState.opened) ∧
    onaudioprocess ⟨true, some ReadyState.closed⟩ [1 / 2] =
      (⟨true, some ReadyState.closed⟩, none) ∧
    captureFrame ⟨true, some ReadyState.closed, 1920, 1080⟩ =
      (⟨true, some ReadyState.closed, 1920, 1080⟩, none) := by
  have h := C2_frames_dropped_when_not_open
    ⟨true, some ReadyState.closed⟩ [1 / 2]
    ⟨true, some ReadyState.closed, 1920, 1080⟩ (by decide) (by decide)
  exact ⟨by decide, h.1, h.2⟩

/-- C6: a capturing screen pipeline with an OPEN socket emits, for a
1920x1080 surface, exactly a 1280x720 JPEG frame at quality 0.7, and for a
640x480 surface an unscaled 640x480 frame; the scale factor is
min(1, 1280/w, 720/h), is never above 1, the emitted dimensions never
exceed the captured ones (no upscaling), and the capture period is a fixed
2000 ms. -/
theorem C6_screen_frame_scaling :
    (captureFrame ⟨true, some ReadyState.opened, 1920, 1080⟩).2 =
      some ⟨1280, 720, "image/jpeg", 7 / 10⟩ ∧
    (captureFrame ⟨true, some ReadyState.opened, 640, 480⟩).2 =
      some ⟨640, 480, "image/jpeg", 7 / 10⟩ ∧
    (∀ vw vh : ℕ, screenScale vw vh = min 1 (min (1280 / (vw : ℚ)) (720 / (vh : ℚ)))) ∧
    (∀ vw vh : ℕ, screenScale vw vh ≤ 1) ∧
    (∀ vw vh : ℕ, (canvasDims vw vh).1 ≤ vw ∧ (canvasDims vw vh).2 ≤ vh) ∧
    frameIntervalMs = 2000 := by
  have hstep : ∀ (w : ℕ) (s : ℚ), s ≤ 1 → jsRound ((w : ℚ) * s) ≤ w := by
    intro w s hs1
    have hmul : (w : ℚ) * s ≤ (w : ℚ) := by
      calc (w : ℚ) * s ≤ (w : ℚ) * 1 :=
        mul_le_mul_of_nonneg_left hs1 (by positivity)
        _ = (w : ℚ) := mul_one _
    unfold jsRound
    have : ((w : ℚ) * s + 1 / 2) < ((w : ℤ) : ℚ) + 1 := by push_cast; linarith
    have hlt := Int.floor_lt.mpr (by push_cast at this ⊢; linarith :
      ((w : ℚ) * s + 1 / 2) < (((w : ℤ) + 1 : ℤ) : ℚ))
    omega
  have hscale : ∀ vw vh : ℕ, screenScale vw vh ≤ 1 := by
    intro vw vh
    exact min_le_left _ _
  refine ⟨?_, ?_, fun vw vh => rfl, hscale, ?_, rfl⟩
  · have h1 : canvasDims 1920 1080 = (1280, 720) := by
      norm_num [canvasDims, jsRound, screenScale, min_def]
    simp [captureFrame, h1, jpegMimeType, jpegQuality]
  · have h2 : canvasDims 640 480 = (640, 480) := by
      norm_num [canvasDims, jsRound, screenScale, min_def]
    simp [captureFrame, h2, jpegMimeType, jpegQuality]
  · intro vw vh
    exact ⟨hstep vw (screenScale vw vh) (hscale vw vh),
           hstep vh (screenScale vw vh) (hscale vw vh)⟩

/- ===================== summary-view.js : MeetingTimer ===================== -/

/-- State of a `MeetingTimer`: configured duration (minutes), the captured
start instant in milliseconds (`none` before `start()`), and the running
flag. The display element and interval id are DOM/platform handles and are
not part of the pure state. -/
structure MeetingTimer where
  durationMinutes : ℕ
  startTime : Option ℕ
  isRunning : Bool
deriving DecidableEq, Repr

/-- `MeetingTimer.start`: captures the current instant and starts updates. -/
def MeetingTimer.start (t : MeetingTimer) (now : ℕ) : MeetingTimer :=
  { t with startTime := some now, isRunning := true }

/-- `MeetingTimer.stop` (state part): clears the running flag. -/
def MeetingTimer.stop (t : MeetingTimer) : MeetingTimer :=
  { t with isRunning := false }

/-- `MeetingTimer.getElapsedSeconds`:
`if (!this.startTime) return 0; return Math.floor((Date.now() - this.startTime) / 1000);`
`Date.now()` is passed in as `now`; the clock does not run backwards, so
natural-number truncated subtraction matches `Date.now() - this.startTime`. -/
def getElapsedSeconds (t : MeetingTimer) (now : ℕ) : ℕ :=
  match t.startTime with
  | none => 0
  | some startMs => (now - startMs) / 1000

/-- `String(n).padStart(2, '0')` for the minute/second components (both are
below 60, so at most one leading zero is ever added). -/
def pad2 (n : ℕ) : String :=
  if n < 10 then "0" ++ toString n else toString n

/-- `MeetingTimer._formatTime`: `MM:SS`, or `H:MM:SS` when at least one hour,
with a leading `-` for negative inputs. -/
def formatTime (totalSec : ℤ) : String :=
  let absSeconds := totalSec.natAbs
  let hours := absSeconds / 3600
  let minutes := absSeconds % 3600 / 60
  let seconds := absSeconds % 60
  let sgn := if totalSec < 0 then "-" else ""
  if hours > 0 then
    sgn ++ toString hours ++ ":" ++ pad2 minutes ++ ":" ++ pad2 seconds
  else
    sgn ++ pad2 minutes ++ ":" ++ pad2 seconds

/-- What one `MeetingTimer._update` tick writes to the display element:
the text content and the two threshold CSS classes. -/
structure TimerDisplay where
  text : String
  warning : Bool
  overtime : Bool
deriving DecidableEq, Repr

/-- `MeetingTimer._update`: recomputes elapsed/remaining from the clock and
start instant, renders `elapsed / total`, and sets `timer-overtime` when
`remaining <= 0`, else `timer-warning` when `remaining <= 300`. -/
def MeetingTimer.update (t : MeetingTimer) (now : ℕ) : TimerDisplay :=
  let elapsed : ℤ := getElapsedSeconds t now
  let totalSeconds : ℤ := (t.durationMinutes : ℤ) * 60
  let remaining : ℤ := totalSeconds - elapsed
  { text := formatTime elapsed ++ " / " ++ formatTime totalSeconds
    overtime := decide (remaining ≤ 0)
    warning := if remaining ≤ 0 then false else decide (remaining ≤ 300) }

/- ===================== app.js : MeetingCoachApp ===================== -/

/-- `this.maxReconnectAttempts = 5;`. -/
def maxReconnectAttempts : ℕ := 5

/-- The orchestrator state fields of `MeetingCoachApp` that the connection
lifecycle reads and writes. `wsReady` abstracts `this.ws` to its readyState
(`none` = no socket yet). -/
structure AppState where
  wsReady : Option ReadyState
  meetingTimer : Option MeetingTimer
  meetingId : Option String
  isConnected : Bool
  isMicActive : Bool
  isScreenSharing : Bool
  reconnectAttempts : ℕ
deriving DecidableEq, Repr

/-- What one call to `_attemptReconnect` does besides mutating the counter:
either it schedules a retry after a backoff delay, or it surfaces the
terminal error and gives up. -/
inductive ReconnectAction
  | scheduleRetry (delayMs : ℕ) (attempt : ℕ)
  | terminalError (message : String)
deriving DecidableEq, Repr

/-- `MeetingCoachApp._attemptReconnect`:
`if (this.reconnectAttempts >= this.maxReconnectAttempts) { showError; return; }`
`this.reconnectAttempts++;`
`const delay = Math.min(1000 * Math.pow(2, this.reconnectAttempts), 10000);`
`setTimeout(..., delay);`. -/
def attemptReconnect (s : AppState) : AppState × ReconnectAction :=
  if s.reconnectAttempts ≥ maxReconnectAttempts then
    (s, ReconnectAction.terminalError
      "Connection lost. Please end the meeting and start a new one.")
  else
    let n := s.reconnectAttempts + 1
    ({ s with reconnectAttempts := n },
     ReconnectAction.scheduleRetry (min (1000 * 2 ^ n) 10000) n)

/-- The `ws.onopen` handler installed by `_connectWebSocket`:
`this.isConnected = true; this.reconnectAttempts = 0;`. -/
def wsOnOpen (s : AppState) : AppState :=
  { s with isConnected := true, reconnectAttempts := 0 }

/-- The `ws.onclose` handler installed by `_connectWebSocket`:
`this.isConnected = false;`
`if (this.meetingTimer && this.meetingTimer.isRunning) this._attemptReconnect(url);`.
Returns the new state and the reconnect action taken, if any. -/
def wsOnClose (s : AppState) : AppState × Option ReconnectAction :=
  let s1 := { s with isConnected := false }
  match s1.meetingTimer with
  | some t =>
      if t.isRunning then
        let p := attemptReconnect s1
        (p.1, some p.2)
      else (s1, none)
  | none => (s1, none)

/-- Side effects the orchestrator issues on the pipelines, views and socket. -/
inductive AppEffect
  | connectWs
  | sendJson (tag : String)
  | closeWsAfter (delayMs : ℕ)
  | showView (viewId : String)
  | stopAudioCapture
  | startAudioCapture
  | stopScreenCapture
  | startScreenCapture
  | initAudioPlayer
  | destroyAudioPlayer
  | startTimerEffect
  | clearNudges
  | clearSummary
deriving DecidableEq, Repr

/-- The effect sequence of the successful path of `_startMeeting`: connect,
send the `config` message once, start audio capture, init the audio player,
start the timer and switch to the active view. -/
def startMeetingActions : List AppEffect :=
  [AppEffect.connectWs, AppEffect.sendJson "config", AppEffect.startAudioCapture,
   AppEffect.initAudioPlayer, AppEffect.startTimerEffect,
   AppEffect.showView "active-meeting-view"]

/-- `MeetingCoachApp._endMeeting`: stop the timer, send `end_meeting` if the
socket is OPEN, stop both captures, show the pending-summary view, and
schedule `ws.close()` after the 10 s grace window. -/
def endMeeting (s : AppState) : AppState × List AppEffect :=
  let timer := s.meetingTimer.map MeetingTimer.stop
  let sendEnd :=
    if s.wsReady = some ReadyState.opened then [AppEffect.sendJson "end_meeting"] else []
  ({ s with meetingTimer := timer, isMicActive := false, isScreenSharing := false },
   sendEnd ++ [AppEffect.stopAudioCapture, AppEffect.stopScreenCapture,
               AppEffect.showView "summary-view", AppEffect.closeWsAfter 10000])

/-- `MeetingCoachApp._resetToSetup`: close the socket, stop both captures,
destroy the player, clear nudges and summary, reset the session fields and
show the setup view. Note: the source does not touch `this.meetingTimer`. -/
def resetToSetup (s : AppState) : AppState × List AppEffect :=
  ({ s with meetingId := none, isConnected := false,
            isMicActive := false, isScreenSharing := false },
   [AppEffect.closeWsAfter 0, AppEffect.stopAudioCapture, AppEffect.stopScreenCapture,
    AppEffect.destroyAudioPlayer, AppEffect.clearNudges, AppEffect.clearSummary,
    AppEffect.showView "setup-view"])

/-- The body of the `setTimeout` callback in `_attemptReconnect` after
`await this._connectWebSocket(url)` succeeds:
`if (this.isMicActive) { this.audioCapture.stop(); await this.audioCapture.start(this.ws); }`
`if (this.isScreenSharing) { this.screenCapture.stop(); await this.screenCapture.start(this.ws); }`. -/
def reconnectSuccessActions (s : AppState) : List AppEffect :=
  (if s.isMicActive then [AppEffect.stopAudioCapture, AppEffect.startAudioCapture] else []) ++
  (if s.isScreenSharing then [AppEffect.stopScreenCapture, AppEffect.startScreenCapture] else [])

/-- Iterated reconnect attempts: the app state after `k` successive calls of
`_attemptReconnect` with no intervening successful open. -/
def iterateReconnect (s : AppState) : ℕ → AppState
  | 0 => s
  | k + 1 => (attemptReconnect (iterateReconnect s k)).1

/- ===================== theorems: C8, C1, C4, C3 ===================== -/

/-- C8: elapsed seconds are always the floored difference between the
current instant and the captured start instant (never a tick count — the
state has no tick counter and the update reads only the clock and the start
instant); each tick recomputes the thresholds, with warning exactly when
0 < remaining ≤ 300 and overtime exactly when remaining ≤ 0; an elapsed
65 s against a 30-minute duration renders "01:05 / 30:00"; and any negative
time component is rendered with a leading minus sign. -/
theorem C8_meeting_timer :
    (∀ (t : MeetingTimer) (now startMs : ℕ), t.startTime = some startMs →
       getElapsedSeconds t now = (now - startMs) / 1000) ∧
    (∀ (t : MeetingTimer) (now : ℕ),
       ((t.update now).warning = true ↔
          0 < (t.durationMinutes : ℤ) * 60 - (getElapsedSeconds t now : ℤ) ∧
          (t.durationMinutes : ℤ) * 60 - (getElapsedSeconds t now : ℤ) ≤ 300) ∧
       ((t.update now).overtime = true ↔
          (t.durationMinutes : ℤ) * 60 - (getElapsedSeconds t now : ℤ) ≤ 0)) ∧
    ((MeetingTimer.mk 30 (some 0) true).update 65000).text = "01:05 / 30:00" ∧
    (∀ z : ℤ, z < 0 → formatTime z = "-" ++ formatTime (-z)) := by
  refine ⟨?_, ?_, ?_, ?_⟩
  · intro t now startMs h
    unfold getElapsedSeconds
    rw [h]
  · intro t now
    unfold MeetingTimer.update
    constructor
    · by_cases hov : (t.durationMinutes : ℤ) * 60 - (getElapsedSeconds t now : ℤ) ≤ 0
      · simp only [if_pos hov]
        constructor
        · intro h
          exact absurd h (by simp)
        · intro h
          omega
      · simp only [if_neg hov]
        constructor
        · intro h
          have := of_decide_eq_true h
          omega
        · intro h
          exact decide_eq_true h.2
    · constructor
      · intro h
        exact of_decide_eq_true h
      · intro h
        exact decide_eq_true h
  · rfl
  · intro z hz
    have hzn : ¬(-z < 0) := by omega
    simp only [formatTime, Int.natAbs_neg, if_pos hz, if_neg hzn]
    split
    · simp [String.append_assoc]
    · simp [String.append_assoc]

/-- Witness for C8: the difference-based elapsed computation and the
negative formatting at concrete inputs. -/
theorem C8_meeting_timer_witness :
    getElapsedSeconds (MeetingTimer.mk 30 (some 0) true) 65000 = 65 ∧
    formatTime (-30) = "-" ++ formatTime 30 := by
  constructor
  · rw [C8_meeting_timer.1 (MeetingTimer.mk 30 (some 0) true) 65000 0 rfl]
  · exact C8_meeting_timer.2.2.2 (-30) (by norm_num)

lemma iterateReconnect_attempts {s : AppState} (h0 : s.reconnectAttempts = 0) :
    ∀ k : ℕ, k ≤ 5 → (iterateReconnect s k).reconnectAttempts = k := by
  intro k
  induction k with
  | zero => intro _; simpa [iterateReconnect] using h0
  | succ n ih =>
      intro h5
      have hn := ih (by omega)
      show (attemptReconnect (iterateReconnect s n)).1.reconnectAttempts = n + 1
      unfold attemptReconnect
      rw [if_neg (by rw [hn]; unfold maxReconnectAttempts; omega)]
      simp [hn]

/-- C1: starting from a freshly opened connection (counter 0), the n-th
successive unexpected-closure reconnect attempt (n = 1..5) is scheduled with
counter value n after a backoff of exactly min(1000·2^n, 10000) ms — the
concrete delays being 2000, 4000, 8000, 10000, 10000 — a 6th call schedules
nothing and surfaces the terminal error instead, and every successful open
resets the counter to 0. -/
theorem C1_reconnect_backoff (s : AppState) (h0 : s.reconnectAttempts = 0) :
    (∀ n : ℕ, 1 ≤ n → n ≤ 5 →
       (attemptReconnect (iterateReconnect s (n - 1))).2 =
         ReconnectAction.scheduleRetry (min (1000 * 2 ^ n) 10000) n) ∧
    ((List.range 5).map (fun k => (attemptReconnect (iterateReconnect s k)).2)) =
      [ReconnectAction.scheduleRetry 2000 1, ReconnectAction.scheduleRetry 4000 2,
       ReconnectAction.scheduleRetry 8000 3, ReconnectAction.scheduleRetry 10000 4,
       ReconnectAction.scheduleRetry 10000 5] ∧
    (∃ msg, (attemptReconnect (iterateReconnect s 5)).2 =
       ReconnectAction.terminalError msg) ∧
    (∀ s2 : AppState, (wsOnOpen s2).reconnectAttempts = 0) := by
  have hstep : ∀ n : ℕ, n ≤ 4 →
      (attemptReconnect (iterateReconnect s n)).2 =
        ReconnectAction.scheduleRetry (min (1000 * 2 ^ (n + 1)) 10000) (n + 1) := by
    intro n hn
    have ha := iterateReconnect_attempts h0 n (by omega)
    unfold attemptReconnect
    rw [if_neg (by rw [ha]; unfold maxReconnectAttempts; omega)]
    simp [ha]
  refine ⟨?_, ?_, ?_, fun _ => rfl⟩
  · intro n h1 h5
    have := hstep (n - 1) (by omega)
    rwa [show n - 1 + 1 = n by omega] at this
  · have e0 := hstep 0 (by omega)
    have e1 := hstep 1 (by omega)
    have e2 := hstep 2 (by omega)
    have e3 := hstep 3 (by omega)
    have e4 := hstep 4 (by omega)
    simp only [List.range_succ, List.range_zero, List.map_append, List.map_cons,
      List.map_nil, List.nil_append, List.cons_append]
    rw [e0, e1, e2, e3, e4]
    norm_num
  · refine ⟨"Connection lost. Please end the meeting and start a new one.", ?_⟩
    have ha := iterateReconnect_attempts h0 5 le_rfl
    unfold attemptReconnect
    rw [if_pos (by rw [ha]; unfold maxReconnectAttempts; omega)]

/-- A representative app state during an active meeting: timer running,
microphone on, screen share off, socket open, counter 0. -/
def activeApp : AppState :=
  { wsReady := some ReadyState.opened
    meetingTimer := some (MeetingTimer.mk 30 (some 0) true)
    meetingId := some "m1"
    isConnected := true
    isMicActive := true
    isScreenSharing := false
    reconnectAttempts := 0 }

/-- Witness for C1: the third attempt from the active state is scheduled
after exactly 8000 ms. -/
theorem C1_reconnect_backoff_witness :
    activeApp.reconnectAttempts = 0 ∧
    (attemptReconnect (iterateReconnect activeApp 2)).2 =
      ReconnectAction.scheduleRetry (min (1000 * 2 ^ 3) 10000) 3 :=
  ⟨rfl, (C1_reconnect_backoff activeApp rfl).1 3 (by norm_num) (by norm_num)⟩

/-- C4 (code bug): the end-meeting grace-window closure is indeed silent
(the timer was stopped first, so the close handler schedules nothing), but
the new-meeting reset closes the socket without stopping the meeting timer —
`_resetToSetup` never calls `meetingTimer.stop()` — so the close event that
follows this explicit `close()` finds the timer still running and schedules
a reconnect, contradicting the claim that explicit closures never do. -/
theorem C4_explicit_close_reconnect_bug :
    (wsOnClose (endMeeting activeApp).1).2 = none ∧
    (resetToSetup activeApp).1.meetingTimer.map MeetingTimer.isRunning = some true ∧
    (wsOnClose (resetToSetup activeApp).1).2 =
      some (ReconnectAction.scheduleRetry 2000 1) := by
  refine ⟨rfl, rfl, rfl⟩

/-- C3 (counterexample): after the successful reconnect in
`_attemptReconnect`, no `config` message is sent (the handshake is not
re-established), and audio capture is not resumed at all when the microphone
was muted before the closure — refuting both the re-handshake part and the
audio-always part of the claim. -/
theorem C3_reconnect_counterexample :
    AppEffect.sendJson "config" ∉ reconnectSuccessActions activeApp ∧
    AppEffect.startAudioCapture ∉
      reconnectSuccessActions { activeApp with isMicActive := false } := by
  constructor
  · simp [reconnectSuccessActions, activeApp]
  · simp [reconnectSuccessActions]

/-- C3 (amended): after a successful reconnect the client does not re-send
the `config` message (the initial `_startMeeting` path does send it); it
restarts audio capture if and only if the microphone was active at closure
time, and screen capture if and only if the share was active; the restart
effect list contains no replay of previously captured frames (no send effect
at all). -/
theorem C3_reconnect_resume (s : AppState) :
    AppEffect.sendJson "config" ∉ reconnectSuccessActions s ∧
    AppEffect.sendJson "config" ∈ startMeetingActions ∧
    (AppEffect.startAudioCapture ∈ reconnectSuccessActions s ↔ s.isMicActive = true) ∧
    (AppEffect.startScreenCapture ∈ reconnectSuccessActions s ↔ s.isScreenSharing = true) ∧
    (∀ tag : String, AppEffect.sendJson tag ∉ reconnectSuccessActions s) := by
  have hall : ∀ tag : String, AppEffect.sendJson tag ∉ reconnectSuccessActions s := by
    intro tag
    unfold reconnectSuccessActions
    cases hm : s.isMicActive <;> cases hsc : s.isScreenSharing <;> simp
  refine ⟨hall "config", by simp [startMeetingActions], ?_, ?_, hall⟩
  · unfold reconnectSuccessActions
    cases hm : s.isMicActive <;> cases hsc : s.isScreenSharing <;> simp
  · unfold reconnectSuccessActions
    cases hm : s.isMicActive <;> cases hsc : s.isScreenSharing <;> simp

/- ===================== nudge-display.js ===================== -/

/-- `const timeout = nudge.priority === 'high' ? 15000 : 8000;`. -/
def nudgeTimeoutMs (priority : String) : ℕ :=
  if priority = "high" then 15000 else 8000

/-- `setTimeout(() => card.remove(), 300)` inside `_dismiss`. -/
def dismissAnimationMs : ℕ := 300

/-- Visibility phase of one nudge card. `visible` is the card in the
container with the `nudge-visible` class; `dismissing` is the card still in
the DOM (`card.parentNode` non-null) during its exit animation; `removed`
is the card detached by `card.remove()`. -/
inductive CardPhase
  | visible
  | dismissing
  | removed
deriving DecidableEq, Repr

/-- A pending timer callback for one nudge card: a `_dismiss(card)` firing
(either the auto-dismiss scheduled by `show` or a user click on the dismiss
button) or a `card.remove()` firing. -/
inductive NudgeEvent
  | dismissEvt
  | removeEvt
deriving DecidableEq, Repr

/-- The event-loop state for one nudge card: its phase, the pending timers
(absolute fire time in ms since `show`, in scheduling order), the instant
the card left the `visible` phase, and the instant it was removed from the
DOM. -/
structure NudgeSim where
  phase : CardPhase
  queue : List (ℕ × NudgeEvent)
  visibleUntil : Option ℕ
  removedAt : Option ℕ
deriving DecidableEq, Repr

/-- Pull the earliest pending timer out of the queue (FIFO among equal fire
times, matching timer registration order). -/
def extractEarliest :
    List (ℕ × NudgeEvent) → Option ((ℕ × NudgeEvent) × List (ℕ × NudgeEvent))
  | [] => none
  | e :: rest =>
      match extractEarliest rest with
      | none => some (e, [])
      | some (e2, rest2) =>
          if e.1 ≤ e2.1 then some (e, rest) else some (e2, e :: rest2)

/-- One event-loop step. A `_dismiss` firing checks `card.parentNode`
(`if (!card.parentNode) return;`): on a removed card it is a no-op;
otherwise it moves the card to the `dismissing` phase and schedules
`card.remove()` 300 ms later. A `remove` firing detaches the card. -/
def nudgeStep (s : NudgeSim) : Option NudgeSim :=
  match extractEarliest s.queue with
  | none => none
  | some ((t, NudgeEvent.dismissEvt), rest) =>
      if s.phase = CardPhase.removed then
        some { s with queue := rest }
      else
        some { phase := CardPhase.dismissing
               queue := rest ++ [(t + dismissAnimationMs, NudgeEvent.removeEvt)]
               visibleUntil :=
                 if s.phase = CardPhase.visible then some t else s.visibleUntil
               removedAt := s.removedAt }
  | some ((t, NudgeEvent.removeEvt), rest) =>
      some { s with phase := CardPhase.removed, queue := rest,
                    removedAt := if s.removedAt = none then some t else s.removedAt }

/-- Run the event loop for at most `fuel` steps (each dismiss schedules one
remove, so 6 steps exhaust every queue arising from `show` plus at most one
user dismissal). -/
def nudgeRun : ℕ → NudgeSim → NudgeSim
  | 0, s => s
  | fuel + 1, s =>
      match nudgeStep s with
      | none => s
      | some s2 => nudgeRun fuel s2

/-- The full timeline of one shown nudge: `show` inserts the visible card
and schedules the auto-dismiss at the priority-keyed timeout; the user may
additionally click dismiss at `manualDismissAt` ms after `show`. -/
def showTimeline (priority : String) (manualDismissAt : Option ℕ) : NudgeSim :=
  let q0 : List (ℕ × NudgeEvent) := [(nudgeTimeoutMs priority, NudgeEvent.dismissEvt)]
  let q1 :=
    match manualDismissAt with
    | some m => q0 ++ [(m, NudgeEvent.dismissEvt)]
    | none => q0
  nudgeRun 6 { phase := CardPhase.visible, queue := q1,
               visibleUntil := none, removedAt := none }

lemma showTimeline_auto (p : String) :
    showTimeline p none =
      { phase := CardPhase.removed, queue := [],
        visibleUntil := some (nudgeTimeoutMs p),
        removedAt := some (nudgeTimeoutMs p + dismissAnimationMs) } := by
  simp [showTimeline, nudgeRun, nudgeStep, extractEarliest]

lemma showTimeline_manual (p : String) (m : ℕ) :
    showTimeline p (some m) =
      { phase := CardPhase.removed, queue := [],
        visibleUntil := some (min (nudgeTimeoutMs p) m),
        removedAt := some (min (nudgeTimeoutMs p) m + dismissAnimationMs) } := by
  set T := nudgeTimeoutMs p with hT
  rcases le_or_lt T m with h1 | h1
  · have hmin : min T m = T := min_eq_left h1
    rcases le_or_lt m (T + dismissAnimationMs) with h2 | h2
    · have h3 : T + dismissAnimationMs ≤ m + dismissAnimationMs := by omega
      simp [showTimeline, nudgeRun, nudgeStep, extractEarliest, h1, h2, h3, hmin]
    · have h2n : ¬ (m ≤ T + dismissAnimationMs) := by omega
      simp [showTimeline, nudgeRun, nudgeStep, extractEarliest, h1, h2n, hmin]
  · have h1n : ¬ (T ≤ m) := by omega
    have hmin : min T m = m := min_eq_right (by omega)
    rcases le_or_lt T (m + dismissAnimationMs) with h2 | h2
    · have h3 : m + dismissAnimationMs ≤ T + dismissAnimationMs := by omega
      simp [showTimeline, nudgeRun, nudgeStep, extractEarliest, h1n, h2, h3, hmin]
    · have h2n : ¬ (T ≤ m + dismissAnimationMs) := by omega
      simp [showTimeline, nudgeRun, nudgeStep, extractEarliest, h1n, h2n, hmin]

/-- C7: the auto-removal timer is 15000 ms for `high` priority and 8000 ms
for every other priority; absent a user dismissal the card stays visible
exactly until that timeout and leaves the DOM 300 ms later (the bounded
animation delay); a user dismissal at any instant m ends the visible
lifetime at min(timeout, m) — immediately, when it comes before the
timeout — and the card is removed 300 ms after that, so the pending
auto-removal firing later never has any effect and the visible lifetime is
never extended. -/
theorem C7_nudge_lifecycle :
    nudgeTimeoutMs "high" = 15000 ∧
    (∀ p : String, p ≠ "high" → nudgeTimeoutMs p = 8000) ∧
    (∀ p : String,
       (showTimeline p none).visibleUntil = some (nudgeTimeoutMs p) ∧
       (showTimeline p none).removedAt =
         some (nudgeTimeoutMs p + dismissAnimationMs)) ∧
    (∀ (p : String) (m : ℕ),
       (showTimeline p (some m)).visibleUntil = some (min (nudgeTimeoutMs p) m) ∧
       (showTimeline p (some m)).removedAt =
         some (min (nudgeTimeoutMs p) m + dismissAnimationMs)) := by
  refine ⟨rfl, ?_, ?_, ?_⟩
  · intro p hp
    unfold nudgeTimeoutMs
    rw [if_neg hp]
  · intro p
    rw [showTimeline_auto]
    exact ⟨rfl, rfl⟩
  · intro p m
    rw [showTimeline_manual]
    exact ⟨rfl, rfl⟩

/-- Witness for C7: a normal-priority nudge times out at 8000 ms, and a
high-priority nudge dismissed by the user at 2000 ms is gone at 2300 ms. -/
theorem C7_nudge_lifecycle_witness :
    nudgeTimeoutMs "normal" = 8000 ∧
    (showTimeline "high" (some 2000)).removedAt = some 2300 := by
  constructor
  · exact C7_nudge_lifecycle.2.1 "normal" (by decide)
  · rw [(C7_nudge_lifecycle.2.2.2 "high" 2000).2]
    norm_num [nudgeTimeoutMs, dismissAnimationMs]

/- ===================== app.js : _updateStateDisplay (C9) ===================== -/

/-- The `state_update` payload fields read by `_updateStateDisplay`; each is
optional (`none` = absent from the message). -/
structure StateMsg where
  current_topic : Option String
  action_items_count : Option ℤ
deriving DecidableEq, Repr

/-- The live-state part of the UI: the text content of the `current-topic`
and `action-items-count` elements. -/
structure LiveUI where
  topicText : String
  actionCountText : String
deriving DecidableEq, Repr

/-- JavaScript truthiness of `state.current_topic` under the optional-string
model: absent and the empty string are falsy. -/
def jsTruthyStr : Option String → Bool
  | none => false
  | some s => decide (s ≠ "")

/-- `state.action_items_count || 0`: absent (and the falsy count 0) yield 0. -/
def jsOrZero : Option ℤ → ℤ
  | none => 0
  | some c => if c = 0 then 0 else c

/-- `MeetingCoachApp._updateStateDisplay`:
`if (topicEl && state.current_topic) topicEl.textContent = state.current_topic;`
`if (actionCountEl) actionCountEl.textContent = state.action_items_count || 0;`
(both elements exist in the page). Note the count element is written on
every call, whether or not the field is present. -/
def updateStateDisplay (ui : LiveUI) (state : StateMsg) : LiveUI :=
  let ui1 :=
    if jsTruthyStr state.current_topic then
      { ui with topicText := state.current_topic.getD "" }
    else ui
  { ui1 with actionCountText := toString (jsOrZero state.action_items_count) }

/-- C9 (counterexample): the claim that an absent field leaves its part of
the UI unchanged is false — a `state_update` without `action_items_count`
overwrites the count display with 0. -/
theorem C9_absent_field_counterexample :
    ¬ (∀ (ui : LiveUI) (state : StateMsg), state.action_items_count = none →
         (updateStateDisplay ui state).actionCountText = ui.actionCountText) := by
  intro h
  have h2 := h ⟨"Intro", "5"⟩ ⟨some "Roadmap", none⟩ rfl
  have h3 : (updateStateDisplay ⟨"Intro", "5"⟩ ⟨some "Roadmap", none⟩).actionCountText
      = "0" := rfl
  rw [h3] at h2
  exact absurd h2 (by decide)

/-- C9 (amended): `current_topic` updates the topic display only when
present and non-empty, and an absent topic leaves it unchanged; but the
count display is rewritten on every `state_update`, to the count when the
field is present and to 0 when it is absent (or 0). -/
theorem C9_state_update_fields (ui : LiveUI) (state : StateMsg) :
    (state.current_topic = none →
       (updateStateDisplay ui state).topicText = ui.topicText) ∧
    (∀ tpc : String, state.current_topic = some tpc → tpc ≠ "" →
       (updateStateDisplay ui state).topicText = tpc) ∧
    (updateStateDisplay ui state).actionCountText =
      toString (state.action_items_count.getD 0) := by
  refine ⟨?_, ?_, ?_⟩
  · intro h
    simp [updateStateDisplay, jsTruthyStr, h]
  · intro tpc h hne
    simp [updateStateDisplay, jsTruthyStr, h, hne]
  · cases hc : state.action_items_count with
    | none => simp [updateStateDisplay, jsOrZero, hc]
    | some c =>
        by_cases h0 : c = 0
        · simp [updateStateDisplay, jsOrZero, hc, h0]
        · simp [updateStateDisplay, jsOrZero, hc, h0]

/-- Witness for C9 (amended): a message carrying only a topic updates the
topic display and resets the count display to "0". -/
theorem C9_state_update_fields_witness :
    (updateStateDisplay ⟨"Intro", "5"⟩ ⟨some "Roadmap", none⟩).topicText = "Roadmap" ∧
    (updateStateDisplay ⟨"Intro", "5"⟩ ⟨some "Roadmap", none⟩).actionCountText =
      toString ((none : Option ℤ).getD 0) := by
  constructor
  · exact (C9_state_update_fields ⟨"Intro", "5"⟩ ⟨some "Roadmap", none⟩).2.1
      "Roadmap" rfl (by decide)
  · exact (C9_state_update_fields ⟨"Intro", "5"⟩ ⟨some "Roadmap", none⟩).2.2

/- ===================== app.js : _handleServerMessage (C10) ===================== -/

/-- A JSON value as produced by `JSON.parse` (`undefined` cannot occur as a
parse result; numbers that matter here are integers). -/
inductive Json
  | null
  | bool (b : Bool)
  | num (n : ℤ)
  | str (s : String)
  | arr (elems : List Json)
  | obj (fields : List (String × Json))

/-- Field lookup in a parsed object. `JSON.parse` collapses duplicate keys
(last occurrence wins), so keys are assumed distinct here. -/
def lookupField : List (String × Json) → String → Option Json
  | [], _ => none
  | (key, v) :: rest, k => if key = k then some v else lookupField rest k

/-- JS property access `j.k` on a non-null value: the field of an object
(possibly undefined = `none`), undefined on every other value. -/
def getField (j : Json) (k : String) : Option Json :=
  match j with
  | Json.obj fields => lookupField fields k
  | _ => none

/-- JS property access `j.k` as it can throw: a TypeError on `null`, the
plain access otherwise. -/
def getFieldE (j : Json) (k : String) : Except String (Option Json) :=
  match j with
  | Json.null => Except.error "TypeError: cannot read properties of null"
  | _ => Except.ok (getField j k)

/-- JavaScript truthiness of a parsed JSON value. -/
def jsTruthy : Json → Bool
  | Json.null => false
  | Json.bool b => b
  | Json.num n => decide (n ≠ 0)
  | Json.str s => decide (s ≠ "")
  | Json.arr _ => true
  | Json.obj _ => true

/-- Whether a parsed JSON value is an array (has `.map`). -/
def isJsonArray : Json → Bool
  | Json.arr _ => true
  | _ => false

/-- The externally visible actions of one dispatched message. -/
inductive DispatchEffect
  | logMsg (text : String)
  | showNudgeCard (nudgeType : String) (timeoutMs : ℕ)
  | playAudio (dataField mimeField : Option Json)
  | renderSummaryView (summary : Json)
  | switchView (viewId : String)
  | applyStateUpdate (topicField countField : Option Json)
  | showUserError (messageField : Option Json)

/-- `NudgeDisplay.show(nudge)` up to its possibly-throwing accesses:
`nudge.priority` in the class-name template throws on a null/undefined
nudge, and `nudge.type.replace(/_/g, ' ')` throws when `type` is absent or
not a string. On success it yields the toast with the priority-keyed
auto-dismiss timeout (a non-string priority is never === the string
`high`). -/
def showNudge (nudge : Option Json) : Except String (List DispatchEffect) :=
  match nudge with
  | none => Except.error "TypeError: cannot read properties of undefined"
  | some Json.null => Except.error "TypeError: cannot read properties of null"
  | some j =>
      match getField j "type" with
      | some (Json.str t) =>
          let priority :=
            match getField j "priority" with
            | some (Json.str p) => p
            | _ => ""
          Except.ok [DispatchEffect.showNudgeCard t (nudgeTimeoutMs priority)]
      | some _ => Except.error "TypeError: nudge.type.replace is not a function"
      | none => Except.error "TypeError: cannot read properties of undefined"

/-- `SummaryView.render(summary)` as it can throw: the first field access
throws on a null/undefined summary, and `(summary.topics || []).map` /
`(summary.action_items || []).map` throw when the field holds a truthy
non-array; every other shape renders through the `|| 0` / `|| []` / `|| {}`
defaults without throwing. -/
def renderSummary (summary : Option Json) : Except String (List DispatchEffect) :=
  match summary with
  | none => Except.error "TypeError: cannot read properties of undefined"
  | some Json.null => Except.error "TypeError: cannot read properties of null"
  | some j =>
      let fieldOk : Option Json → Bool := fun f =>
        match f with
        | some v => !(jsTruthy v) || isJsonArray v
        | none => true
      if fieldOk (getField j "topics") && fieldOk (getField j "action_items") then
        Except.ok [DispatchEffect.renderSummaryView j]
      else
        Except.error "TypeError: map is not a function"

/-- The `switch (msg.type)` body of `_handleServerMessage`, with each case's
possibly-throwing handler call. `audioPlayer.play` is `async` and catches
internally, so it never throws into the dispatcher; `_updateStateDisplay`
only performs guarded/defaulted accesses and never throws. -/
def handleServerMessageBody (msg : Json) : Except String (List DispatchEffect) :=
  match getFieldE msg "type" with
  | Except.error e => Except.error e
  | Except.ok t =>
      match t with
      | some (Json.str "connection_ready") =>
          Except.ok [DispatchEffect.logMsg "Session established"]
      | some (Json.str "nudge") =>
          match getFieldE msg "nudge" with
          | Except.error e => Except.error e
          | Except.ok n => showNudge n
      | some (Json.str "audio_whisper") =>
          Except.ok [DispatchEffect.playAudio (getField msg "data")
                       (getField msg "mime_type")]
      | some (Json.str "summary") =>
          match renderSummary (getField msg "summary") with
          | Except.error e => Except.error e
          | Except.ok effs => Except.ok (effs ++ [DispatchEffect.switchView "summary-view"])
      | some (Json.str "state_update") =>
          Except.ok [DispatchEffect.applyStateUpdate (getField msg "current_topic")
                       (getField msg "action_items_count")]
      | some (Json.str "error") =>
          Except.ok [DispatchEffect.logMsg "Server error",
                     DispatchEffect.showUserError (getField msg "message")]
      | _ => Except.ok [DispatchEffect.logMsg "Unknown message type"]

/-- `MeetingCoachApp._handleServerMessage`: `JSON.parse` plus the whole
switch run inside a single `try { } catch (err) { console.error(...) }`.
`JSON.parse` is a platform primitive, so its outcome is the input here
(`Except.error` = the parse threw). Every inner throw becomes a log effect
and a normal return. -/
def handleServerMessage (parsed : Except String Json) : List DispatchEffect :=
  match parsed with
  | Except.error e =>
      [DispatchEffect.logMsg ("Failed to parse server message: " ++ e)]
  | Except.ok msg =>
      match handleServerMessageBody msg with
      | Except.ok effs => effs
      | Except.error e =>
          [DispatchEffect.logMsg ("Failed to parse server message: " ++ e)]

/-- A well-formed `nudge` envelope whose nudge payload is missing its `type`
field — the claim's example of a recognized message whose handler throws. -/
def nudgeMissingType : Json :=
  Json.obj [("type", Json.str "nudge"),
            ("nudge", Json.obj [("message", Json.str "hello")])]

/-- C10: the message handler never throws — a parse failure is logged and
dropped, any exception from a recognized-type handler (such as a nudge
payload missing its `type` field, which genuinely throws inside
`NudgeDisplay.show`) is caught by the same surrounding handler, logged and
dropped, and a successful dispatch returns its effects unchanged — so every
input yields a normal effect list and the dispatcher can process the next
message. -/
theorem C10_dispatcher_never_throws :
    (∀ e : String, handleServerMessage (Except.error e) =
       [DispatchEffect.logMsg ("Failed to parse server message: " ++ e)]) ∧
    (∀ (msg : Json) (e : String), handleServerMessageBody msg = Except.error e →
       handleServerMessage (Except.ok msg) =
         [DispatchEffect.logMsg ("Failed to parse server message: " ++ e)]) ∧
    (∀ (msg : Json) (effs : List DispatchEffect),
       handleServerMessageBody msg = Except.ok effs →
       handleServerMessage (Except.ok msg) = effs) ∧
    (∃ e : String, handleServerMessageBody nudgeMissingType = Except.error e) := by
  have hok : ∀ msg : Json, handleServerMessage (Except.ok msg) =
      match handleServerMessageBody msg with
      | Except.ok effs => effs
      | Except.error e =>
          [DispatchEffect.logMsg ("Failed to parse server message: " ++ e)] :=
    fun msg => rfl
  refine ⟨fun e => rfl, ?_, ?_, ⟨"TypeError: cannot read properties of undefined", rfl⟩⟩
  · intro msg e h
    rw [hok msg, h]
  · intro msg effs h
    rw [hok msg, h]

/-- Witness for C10: the nudge-without-type message throws inside the
switch and the surrounding handler turns it into a single log effect. -/
theorem C10_dispatcher_never_throws_witness :
    handleServerMessageBody nudgeMissingType =
      Except.error "TypeError: cannot read properties of undefined" ∧
    handleServerMessage (Except.ok nudgeMissingType) =
      [DispatchEffect.logMsg
        ("Failed to parse server message: " ++
          "TypeError: cannot read properties of undefined")] := by
  refine ⟨rfl, ?_⟩
  exact C10_dispatcher_never_throws.2.1 nudgeMissingType
    "TypeError: cannot read properties of undefined" rfl
